import Mathlib

/-!
Verification of the date-range resolver and news-fetch plumbing of the
stock-news scripts.  The repository holds four near-duplicate variants
(`share.py`, `hello.py`, `sshare.py`, `shharee.py`); each is embedded below in
its own namespace.  Calendar dates are represented by their day number counted
from 1970-01-01 (proleptic Gregorian), which is exactly the arithmetic the
Python `datetime` / `timedelta` pair performs when whole days are subtracted.
-/

/-- Day number to civil date `(year, month, day)`, days counted from
1970-01-01, proleptic Gregorian calendar.  All intermediate divisions act on
nonnegative dividends, so truncated division agrees with floor division. -/
def civilFromDays (z0 : Int) : Int × Int × Int :=
  let z := z0 + 719468
  let era := (if 0 ≤ z then z else z - 146096) / 146097
  let doe := z - era * 146097
  let yoe := (doe - doe / 1460 + doe / 36524 - doe / 146096) / 365
  let y := yoe + era * 400
  let doy := doe - (365 * yoe + yoe / 4 - yoe / 100)
  let mp := (5 * doy + 2) / 153
  let d := doy - (153 * mp + 2) / 5 + 1
  let m := if mp < 10 then mp + 3 else mp - 9
  (if m ≤ 2 then y + 1 else y, m, d)

/-- Civil date `(year, month, day)` to day number counted from 1970-01-01. -/
def daysFromCivil (y m d : Int) : Int :=
  let yA := if m ≤ 2 then y - 1 else y
  let era := (if 0 ≤ yA then yA else yA - 399) / 400
  let yoe := yA - era * 400
  let doy := (153 * (if 2 < m then m - 3 else m + 9) + 2) / 5 + d - 1
  let doe := yoe * 365 + yoe / 4 - yoe / 100 + doy
  era * 146097 + doe - 719468

/-- The decimal digit character for `n % 10`. -/
def digitChar (n : Int) : Char := Char.ofNat (48 + (n % 10).toNat)

/-- Zero-padded 2-digit decimal rendering (for months and days). -/
def pad2 (n : Int) : String := String.mk [digitChar (n / 10), digitChar n]

/-- Zero-padded 4-digit decimal rendering (for years). -/
def pad4 (n : Int) : String :=
  String.mk [digitChar (n / 1000), digitChar (n / 100), digitChar (n / 10), digitChar n]

/-- Python `strftime` with pattern `%Y-%m-%d` applied to the date with day
number `z`: zero-padded `YYYY-MM-DD`. -/
def formatDate (z : Int) : String :=
  match civilFromDays z with
  | (y, m, d) => pad4 y ++ "-" ++ pad2 m ++ "-" ++ pad2 d

/-- Python `strftime` with the pattern `%Y-m-%d` found on the last line of
`shharee.py`: the `m` is a literal character, not a month directive, so the
month is never printed. -/
def formatDateShharee (z : Int) : String :=
  match civilFromDays z with
  | (y, _, d) => pad4 y ++ "-m-" ++ pad2 d

/-- The search-query construction shared verbatim by `share.py`, `hello.py`
and `sshare.py`: OR-join of the first 15 symbols, AND-combined with the fixed
keyword group. -/
def build_query (stock_list : List String) : String :=
  "(" ++ String.intercalate " OR " (List.take 15 stock_list) ++
    ") AND (stock OR market OR NSE OR BSE)"

/-- Offset table of spec section 4.1 in the week-based vocabulary
(`last_4_weeks` = 28 days).  Spec-side definition, for comparison with the
code-side resolvers. -/
def specOffsetWeeks (period_name : String) : Int :=
  if period_name = "last_week" then 7
  else if period_name = "last_4_weeks" then 28
  else if period_name = "last_3_months" then 90
  else if period_name = "last_6_months" then 180
  else 7

/-- Offset table of spec section 4.1 in the month-named vocabulary
(`one_month` = 30 days).  Spec-side definition, for comparison with the
code-side resolvers. -/
def specOffsetMonths (period_name : String) : Int :=
  if period_name = "last_week" then 7
  else if period_name = "one_month" then 30
  else if period_name = "three_months" then 90
  else 7

namespace share

/-- Module-level credential constant of `share.py`, left at its placeholder. -/
def NEWS_API_KEY : String := "YOUR_API_KEY_HERE"

/-- `get_date_range` of `share.py` (lines 99-121); `timedelta(weeks=4)` is
`7 * 4` days. -/
def get_date_range (period_name : String) (today : Int) : String × String :=
  let from_date :=
    if period_name = "last_week" then today - 7
    else if period_name = "last_4_weeks" then today - 7 * 4
    else if period_name = "last_3_months" then today - 90
    else if period_name = "last_6_months" then today - 180
    else today - 7
  (formatDate from_date, formatDate today)

/-- `fetch_news_for_stocks` of `share.py` (lines 125-187), abstracted to its
observable effect: the list of queries actually sent to the news API.  The
function returns `None` on every path in the source, so only the invocation
log is modelled. -/
def fetch_news_for_stocks (api_key : String) (stock_list : List String)
    (from_date to_date : String) : List String :=
  if api_key = "YOUR_API_KEY_HERE" then []
  else if stock_list = [] then []
  else [build_query stock_list]

end share

namespace hello

/-- `get_date_range` of `hello.py` (lines 93-111), identical to the `share.py`
resolver. -/
def get_date_range (period_name : String) (today : Int) : String × String :=
  let from_date :=
    if period_name = "last_week" then today - 7
    else if period_name = "last_4_weeks" then today - 7 * 4
    else if period_name = "last_3_months" then today - 90
    else if period_name = "last_6_months" then today - 180
    else today - 7
  (formatDate from_date, formatDate today)

/-- `fetch_news_for_stocks` of `hello.py` (lines 115-157).  The news API is an
external collaborator, passed in as `api`; the result pairs the returned
article list with the log of queries sent.  An empty `api_key` is falsy in
Python, and both guard branches return `[]` without any API call. -/
def fetch_news_for_stocks {α : Type} (api_key : String) (stock_list : List String)
    (from_date to_date : String) (api : String → String → String → List α) :
    List α × List String :=
  if api_key = "" then ([], [])
  else if stock_list = [] then ([], [])
  else
    let query := build_query stock_list
    (api query from_date to_date, [query])

/-- `get_sentiment` of `hello.py` (lines 161-177), as a function of the
compound polarity score (the score itself comes from the external VADER
collaborator); thresholds `0.05` and `-0.05` are exact rationals. -/
def get_sentiment (compound : ℚ) : String × String :=
  if compound ≥ 5 / 100 then ("Positive", "🟢")
  else if compound ≤ -(5 / 100) then ("Negative", "🔴")
  else ("Neutral", "⚪")

end hello

namespace sshare

/-- `get_date_range` of `sshare.py` (lines 94-110): tags `one_month`
(30 days) and `three_months` (90 days); everything else defaults to 7 days. -/
def get_date_range (period_name : String) (today : Int) : String × String :=
  let from_date :=
    if period_name = "last_week" then today - 7
    else if period_name = "one_month" then today - 30
    else if period_name = "three_months" then today - 90
    else today - 7
  (formatDate from_date, formatDate today)

/-- `fetch_news_for_stocks` of `sshare.py` (lines 114-164), modelled exactly
like the `hello.py` variant: same guards, same query construction. -/
def fetch_news_for_stocks {α : Type} (api_key : String) (stock_list : List String)
    (from_date to_date : String) (api : String → String → String → List α) :
    List α × List String :=
  if api_key = "" then ([], [])
  else if stock_list = [] then ([], [])
  else
    let query := build_query stock_list
    (api query from_date to_date, [query])

end sshare

namespace shharee

/-- `get_date_range` of `shharee.py` (lines 21-39): the offset table of
`share.py`, but the end date is rendered with the `%Y-m-%d` pattern of
line 39, whose `m` is a literal character. -/
def get_date_range (period_name : String) (today : Int) : String × String :=
  let from_date :=
    if period_name = "last_week" then today - 7
    else if period_name = "last_4_weeks" then today - 7 * 4
    else if period_name = "last_3_months" then today - 90
    else if period_name = "last_6_months" then today - 180
    else today - 7
  (formatDate from_date, formatDateShharee today)

end shharee

/-- C1: in the `share.py` and `hello.py` resolvers each recognized period tag
maps to its fixed whole-day offset before the reference date — 7, 28, 90 and
180 days — and the result is `(format (now - offset), format now)`; in
particular the 180-day period at 2024-03-15 yields 2023-09-17. -/
theorem C1_period_offsets (t : Int) :
    share.get_date_range "last_week" t = (formatDate (t - 7), formatDate t)
    ∧ share.get_date_range "last_4_weeks" t = (formatDate (t - 28), formatDate t)
    ∧ share.get_date_range "last_3_months" t = (formatDate (t - 90), formatDate t)
    ∧ share.get_date_range "last_6_months" t = (formatDate (t - 180), formatDate t)
    ∧ hello.get_date_range "last_week" t = (formatDate (t - 7), formatDate t)
    ∧ hello.get_date_range "last_4_weeks" t = (formatDate (t - 28), formatDate t)
    ∧ hello.get_date_range "last_3_months" t = (formatDate (t - 90), formatDate t)
    ∧ hello.get_date_range "last_6_months" t = (formatDate (t - 180), formatDate t)
    ∧ share.get_date_range "last_6_months" (daysFromCivil 2024 3 15)
        = ("2023-09-17", "2024-03-15") :=
  ⟨rfl, rfl, rfl, rfl, rfl, rfl, rfl, rfl, by decide⟩

/-- C2: the resolvers are total over strings: any period tag outside the
recognized enumeration resolves exactly like `last_week`, in the `share.py`,
`hello.py` and `sshare.py` variants. -/
theorem C2_unrecognized_defaults (p : String) (t : Int)
    (h1 : p ≠ "last_week") (h2 : p ≠ "last_4_weeks")
    (h3 : p ≠ "last_3_months") (h4 : p ≠ "last_6_months")
    (h5 : p ≠ "one_month") (h6 : p ≠ "three_months") :
    share.get_date_range p t = share.get_date_range "last_week" t
    ∧ hello.get_date_range p t = hello.get_date_range "last_week" t
    ∧ sshare.get_date_range p t = sshare.get_date_range "last_week" t := by
  refine ⟨?_, ?_, ?_⟩ <;>
    simp [share.get_date_range, hello.get_date_range, sshare.get_date_range,
      h1, h2, h3, h4, h5, h6]

/-- C2 witness: the fallback at the concrete unrecognized tag `bogus_value`. -/
theorem C2_unrecognized_defaults_witness :
    ("bogus_value" : String) ≠ "last_week"
    ∧ (share.get_date_range "bogus_value" 0 = share.get_date_range "last_week" 0
       ∧ hello.get_date_range "bogus_value" 0 = hello.get_date_range "last_week" 0
       ∧ sshare.get_date_range "bogus_value" 0 = sshare.get_date_range "last_week" 0) :=
  ⟨by decide, C2_unrecognized_defaults "bogus_value" 0 (by decide) (by decide)
    (by decide) (by decide) (by decide) (by decide)⟩

/-- C3 is refuted on the `shharee.py` variant: its end component comes from
the `%Y-m-%d` pattern, which prints a literal `m` in place of the zero-padded
month, so the second component is `2024-m-15`, not `format(now)`; the
`share.py` variant at the same input does produce zero-padded `YYYY-MM-DD`
on both components. -/
theorem C3_shharee_end_not_iso :
    shharee.get_date_range "last_week" (daysFromCivil 2024 3 15)
      = ("2024-03-08", "2024-m-15")
    ∧ (shharee.get_date_range "last_week" (daysFromCivil 2024 3 15)).2
        ≠ formatDate (daysFromCivil 2024 3 15)
    ∧ share.get_date_range "last_week" (daysFromCivil 2024 3 15)
      = ("2024-03-08", "2024-03-15") :=
  ⟨by decide, by decide, by decide⟩

/-- C4: for every valid period tag, the resolver's end component is the
formatted reference date, the start component is the formatted date exactly
`specOffset` days earlier — an offset determined solely by the tag — and the
start day number is at most the end day number; shown for the `share.py`
resolver against the week-based offset table and for the `sshare.py` resolver
against the month-named offset table. -/
theorem C4_start_le_end (p q : String) (t : Int)
    (hp : p = "last_week" ∨ p = "last_4_weeks" ∨ p = "last_3_months" ∨ p = "last_6_months")
    (hq : q = "last_week" ∨ q = "one_month" ∨ q = "three_months") :
    (share.get_date_range p t).2 = formatDate t
    ∧ (share.get_date_range p t).1 = formatDate (t - specOffsetWeeks p)
    ∧ t - specOffsetWeeks p ≤ t
    ∧ (sshare.get_date_range q t).2 = formatDate t
    ∧ (sshare.get_date_range q t).1 = formatDate (t - specOffsetMonths q)
    ∧ t - specOffsetMonths q ≤ t := by
  have hw : (0 : Int) ≤ specOffsetWeeks p := by
    unfold specOffsetWeeks; split_ifs <;> norm_num
  have hm : (0 : Int) ≤ specOffsetMonths q := by
    unfold specOffsetMonths; split_ifs <;> norm_num
  obtain hp | hp | hp | hp := hp <;> obtain hq | hq | hq := hq <;>
    subst hp <;> subst hq <;>
    exact ⟨rfl, rfl, sub_le_self t hw, rfl, rfl, sub_le_self t hm⟩

/-- C4 witness: the invariant at the 180-day tag, the 30-day tag and day
number 19797 (2024-03-15). -/
theorem C4_start_le_end_witness :
    (share.get_date_range "last_6_months" 19797).2 = formatDate 19797
    ∧ (share.get_date_range "last_6_months" 19797).1
        = formatDate (19797 - specOffsetWeeks "last_6_months")
    ∧ 19797 - specOffsetWeeks "last_6_months" ≤ 19797
    ∧ (sshare.get_date_range "one_month" 19797).2 = formatDate 19797
    ∧ (sshare.get_date_range "one_month" 19797).1
        = formatDate (19797 - specOffsetMonths "one_month")
    ∧ 19797 - specOffsetMonths "one_month" ≤ 19797 :=
  C4_start_le_end "last_6_months" "one_month" 19797
    (by decide) (by decide)

/-- C5: the 90-day period uses true calendar subtraction across the 2024 leap
boundary: from 2024-02-29 the start is 2023-12-01, which is exactly the day
number 90 below that of 2024-02-29, and from 2024-03-15 the start is
2023-12-16; the `hello.py` variant agrees. -/
theorem C5_leap_year_90_days :
    share.get_date_range "last_3_months" (daysFromCivil 2024 2 29)
      = ("2023-12-01", "2024-02-29")
    ∧ daysFromCivil 2023 12 1 = daysFromCivil 2024 2 29 - 90
    ∧ share.get_date_range "last_3_months" (daysFromCivil 2024 3 15)
      = ("2023-12-16", "2024-03-15")
    ∧ hello.get_date_range "last_3_months" (daysFromCivil 2024 3 15)
      = ("2023-12-16", "2024-03-15") :=
  ⟨by decide, by decide, by decide, by decide⟩

/-- C6: the month-length period differs by variant exactly as the spec's
table states: `last_4_weeks` is 28 days in the `share.py` resolver,
`one_month` is 30 days in the `sshare.py` resolver, and in the latter every
tag other than its three recognized ones falls back to the 7-day default. -/
theorem C6_month_period_variants (t : Int) (p : String)
    (h1 : p ≠ "last_week") (h2 : p ≠ "one_month") (h3 : p ≠ "three_months") :
    share.get_date_range "last_4_weeks" t = (formatDate (t - 28), formatDate t)
    ∧ sshare.get_date_range "one_month" t = (formatDate (t - 30), formatDate t)
    ∧ sshare.get_date_range p t = (formatDate (t - 7), formatDate t) := by
  refine ⟨rfl, rfl, ?_⟩
  simp [sshare.get_date_range, h1, h2, h3]

/-- C6 witness: in the `sshare.py` resolver the foreign tag `last_4_weeks`
falls back to the 7-day default. -/
theorem C6_month_period_variants_witness :
    ("last_4_weeks" : String) ≠ "one_month"
    ∧ (share.get_date_range "last_4_weeks" 0 = (formatDate (-28), formatDate 0)
       ∧ sshare.get_date_range "one_month" 0 = (formatDate (-30), formatDate 0)
       ∧ sshare.get_date_range "last_4_weeks" 0 = (formatDate (-7), formatDate 0)) :=
  ⟨by decide, by
    simpa using C6_month_period_variants 0 "last_4_weeks"
      (by decide) (by decide) (by decide)⟩

/-- C7: for a non-empty stock list, the query OR-joins exactly the first
15 symbols — a prefix of the list, in list order — AND-combined with the
fixed keyword group, and when the list has at most 15 symbols all of them
appear. -/
theorem C7_query_shape (l : List String) (h : l ≠ []) :
    build_query l
      = "(" ++ String.intercalate " OR " (List.take 15 l)
          ++ ") AND (stock OR market OR NSE OR BSE)"
    ∧ (List.take 15 l).length ≤ 15
    ∧ List.take 15 l ++ List.drop 15 l = l
    ∧ (l.length ≤ 15 → List.take 15 l = l) := by
  refine ⟨rfl, ?_, List.take_append_drop 15 l, fun hl => List.take_of_length_le hl⟩
  simp [List.length_take]

/-- C7 witness: the query built from a concrete three-symbol list. -/
theorem C7_query_shape_witness :
    (["RELIANCE", "TCS", "INFY"] : List String) ≠ []
    ∧ (build_query ["RELIANCE", "TCS", "INFY"]
        = "(" ++ String.intercalate " OR " (List.take 15 ["RELIANCE", "TCS", "INFY"])
            ++ ") AND (stock OR market OR NSE OR BSE)"
       ∧ (List.take 15 (["RELIANCE", "TCS", "INFY"] : List String)).length ≤ 15
       ∧ List.take 15 (["RELIANCE", "TCS", "INFY"] : List String)
           ++ List.drop 15 ["RELIANCE", "TCS", "INFY"] = ["RELIANCE", "TCS", "INFY"]
       ∧ ((["RELIANCE", "TCS", "INFY"] : List String).length ≤ 15 →
            List.take 15 (["RELIANCE", "TCS", "INFY"] : List String)
              = ["RELIANCE", "TCS", "INFY"])) :=
  ⟨by decide, C7_query_shape ["RELIANCE", "TCS", "INFY"] (by decide)⟩

/-- C8: with a missing credential — the empty string in `hello.py` and
`sshare.py`, the untouched placeholder constant in `share.py` — the
news-fetch returns immediately: the article result is empty and the query
invocation log is empty, so the search collaborator is never called. -/
theorem C8_missing_key_blocks {α : Type} (stocks : List String) (f t : String)
    (api : String → String → String → List α) :
    hello.fetch_news_for_stocks "" stocks f t api = ([], [])
    ∧ sshare.fetch_news_for_stocks "" stocks f t api = ([], [])
    ∧ share.fetch_news_for_stocks share.NEWS_API_KEY stocks f t = [] :=
  ⟨rfl, rfl, rfl⟩

/-- C9: with an empty stock list the news-fetch halts before any search call,
for every API key: the article result is empty and the query invocation log
is empty in all three variants. -/
theorem C9_empty_list_blocks {α : Type} (key f t : String)
    (api : String → String → String → List α) :
    hello.fetch_news_for_stocks key [] f t api = ([], [])
    ∧ sshare.fetch_news_for_stocks key [] f t api = ([], [])
    ∧ share.fetch_news_for_stocks key [] f t = [] := by
  refine ⟨?_, ?_, ?_⟩
  · simp [hello.fetch_news_for_stocks]
  · simp [sshare.fetch_news_for_stocks]
  · simp [share.fetch_news_for_stocks]

/-- C10: the sentiment labeller returns exactly one of the three labels and
partitions the compound-score line with inclusive thresholds: Positive iff
the score is at least 0.05, Negative iff it is at most -0.05, Neutral exactly
on the open interval between; the boundary scores 0.05 and -0.05 are labelled
Positive and Negative. -/
theorem C10_sentiment_partition (c : ℚ) :
    ((hello.get_sentiment c).1 = "Positive" ∨ (hello.get_sentiment c).1 = "Negative"
      ∨ (hello.get_sentiment c).1 = "Neutral")
    ∧ ((hello.get_sentiment c).1 = "Positive" ↔ 5 / 100 ≤ c)
    ∧ ((hello.get_sentiment c).1 = "Negative" ↔ c ≤ -(5 / 100))
    ∧ ((hello.get_sentiment c).1 = "Neutral" ↔ (-(5 / 100) < c ∧ c < 5 / 100))
    ∧ (hello.get_sentiment (5 / 100)).1 = "Positive"
    ∧ (hello.get_sentiment (-(5 / 100))).1 = "Negative" := by
  refine ⟨?_, ?_, ?_, ?_, by norm_num [hello.get_sentiment], by norm_num [hello.get_sentiment]⟩
  · unfold hello.get_sentiment
    split_ifs <;> simp
  · unfold hello.get_sentiment
    split_ifs with h1 h2 <;> simp_all
  · unfold hello.get_sentiment
    split_ifs with h1 h2 <;> simp_all
    linarith
  · unfold hello.get_sentiment
    split_ifs with h1 h2 <;> simp_all
